import Mathlib

/-!
Verification model of the hybrid audience-discovery core in
`src/orchestration.py` (the `agentic-cdp-demo` repository).

The external collaborators (relational store, vector index, inference and
embedding backends) are modelled as function parameters; the repository's own
control flow, filter construction and value coercion are translated directly
from the source.  Python machine details modelled here:

* a raised Python exception is modelled as the `Except.error` branch carrying
  the exception's message string;
* parsed float values are represented exactly (rationals plus signed infinity
  and nan) — nothing below depends on IEEE-754 rounding;
* the value-coercion step of `hybrid_audience_search` is modelled twice.  The
  filter-construction pipeline uses a total coercion over the ASCII fragment
  of `isdigit`/`float` (`pyIsDigit`, `parsePyFloat`, `coerceConstraint`) —
  the properties proved through that pipeline concern only the shape of the
  emitted predicates, never the coerced values.  The Unicode-aware model
  (`pyIsDigitU`, `pyIntU`, `parsePyFloatU`, `coerceConstraintU`) captures
  `int()`/`float()` exactly on a documented fragment of the Unicode tables:
  `str.isdigit` also accepts digit characters beyond ASCII, `int()` accepts
  only those with a decimal value, and `float()` additionally accepts
  underscore separators and `inf`/`infinity`/`nan`.  Because the `int(value)`
  call of orchestration.py:144 sits outside the try/except (which guards only
  the `float(value)` call of lines 146-147), the real coercion step raises an
  uncaught ValueError on a digit character without decimal value, such as a
  superscript digit; the Unicode-aware model exhibits that error path.
-/

namespace AgenticCDP

/-- A Python scalar value as it can arrive in `filters_dict` or be produced by
the coercion step of `hybrid_audience_search` (src/orchestration.py:139-150).
`vIntList` is the candidate-identifier list used as an IN-filter value. -/
inductive PyVal where
  | vStr (s : String)
  | vInt (n : Int)
  | vFloat (q : Rat)
  | vFloatInf (neg : Bool)
  | vFloatNaN
  | vBool (b : Bool)
  | vNone
  | vIntList (ids : List Int)
  deriving DecidableEq, Repr

/-- ASCII fragment of Python `value.isdigit()` (src/orchestration.py:143):
nonempty and all characters are ASCII decimal digits.  This is the fragment
on which the subsequent `int(value)` cannot raise; the Unicode-aware test is
`pyIsDigitU` below. -/
def pyIsDigit (s : String) : Bool :=
  !s.data.isEmpty && s.data.all Char.isDigit

/-- The numeric value of a digit string, as Python `int(value)` computes it on
an input that passed `isdigit` (src/orchestration.py:144). -/
def digitsVal (cs : List Char) : Nat :=
  cs.foldl (fun a c => a * 10 + (c.toNat - 48)) 0

/-- Python `int(s)` on a digit-only string. -/
def pyInt (s : String) : Int :=
  (digitsVal s.data : Int)

/-- Strip leading and trailing whitespace, as Python `float()` does before
parsing its argument. -/
def stripWs (cs : List Char) : List Char :=
  ((cs.dropWhile Char.isWhitespace).reverse.dropWhile Char.isWhitespace).reverse

/-- Consume an optional leading sign; returns (isNegative, rest). -/
def parseSign : List Char → Bool × List Char
  | c :: rest =>
    if c = '-' then (true, rest)
    else if c = '+' then (false, rest)
    else (false, c :: rest)
  | [] => (false, [])

/-- Parse `digits [. digits]` requiring at least one digit overall; returns
`((numRaw, fracLen), rest)` where the mantissa's value is
`numRaw / 10 ^ fracLen`. -/
def parseMantissa (cs : List Char) : Option ((Nat × Nat) × List Char) :=
  let intPart := cs.takeWhile Char.isDigit
  let rest1 := cs.dropWhile Char.isDigit
  match rest1 with
  | '.' :: rest2 =>
    let fracPart := rest2.takeWhile Char.isDigit
    let rest3 := rest2.dropWhile Char.isDigit
    if intPart.isEmpty && fracPart.isEmpty then none
    else some ((digitsVal intPart * 10 ^ fracPart.length + digitsVal fracPart,
      fracPart.length), rest3)
  | _ =>
    if intPart.isEmpty then none
    else some ((digitsVal intPart, 0), rest1)

/-- Parse an optional exponent suffix `e[sign]digits`; `none` when no
well-formed exponent starts here. -/
def parseExpOpt : List Char → Option (Int × List Char)
  | c :: rest =>
    if c = 'e' ∨ c = 'E' then
      let sr := parseSign rest
      let ds := sr.2.takeWhile Char.isDigit
      let rest3 := sr.2.dropWhile Char.isDigit
      if ds.isEmpty then none
      else some ((if sr.1 then -(digitsVal ds : Int) else (digitsVal ds : Int)), rest3)
    else none
  | [] => none

/-- Assemble the exact rational value `± numRaw / 10 ^ fracLen * 10 ^ e` of a
parsed float from its sign, raw mantissa digits, fraction length and decimal
exponent. -/
def ratOfParts (neg : Bool) (numRaw fracLen : Nat) (e : Int) : Rat :=
  let num : Int := if neg then -(numRaw : Int) else (numRaw : Int)
  if 0 ≤ e then mkRat (num * ((10 ^ e.toNat : Nat) : Int)) (10 ^ fracLen)
  else mkRat num (10 ^ fracLen * 10 ^ (-e).toNat)

/-- Finite decimal/exponent fragment of Python `float(s)`
(src/orchestration.py:146): `some` the exact rational value when `s` parses,
`none` when `float` would raise `ValueError`.  The Unicode-aware parser with
underscore separators and `inf`/`nan` is `parsePyFloatU` below. -/
def parsePyFloat (s : String) : Option Rat :=
  let cs := stripWs s.data
  let sr := parseSign cs
  match parseMantissa sr.2 with
  | none => none
  | some mc =>
    let ec :=
      match parseExpOpt mc.2 with
      | some er => er
      | none => ((0 : Int), mc.2)
    if ec.2.isEmpty then some (ratOfParts sr.1 mc.1.1 mc.1.2 ec.1) else none

/-- The per-constraint value coercion of src/orchestration.py:141-147 over
the ASCII fragment, on which it is total: a digit string becomes an integer,
else a float-parsable string becomes a float, else the string stays
unchanged; every non-string value passes through.  The exact Unicode-aware
coercion is `coerceConstraintU` below; it exhibits the uncaught ValueError
that `int(value)` at line 144 — outside the try/except, which guards only
the `float(value)` call — raises on digit characters without decimal value. -/
def coerceConstraint (v : PyVal) : PyVal :=
  match v with
  | .vStr s =>
    if pyIsDigit s then .vInt (pyInt s)
    else
      match parsePyFloat s with
      | some q => .vFloat q
      | none => .vStr s
  | other => other

/-- The two operators of `llama_index.core.vector_stores.FilterOperator` used
by the source (src/orchestration.py:135,149). -/
inductive FilterOperator where
  | EQ
  | IN
  deriving DecidableEq, Repr

/-- One typed predicate of a Metadata Filter (spec section 3). -/
structure MetadataFilter where
  key : String
  value : PyVal
  operator : FilterOperator
  deriving DecidableEq, Repr

/-- How the predicates of a `MetadataFilters` object are combined. -/
inductive FilterCondition where
  | AND
  | OR
  deriving DecidableEq, Repr

/-- The filter object handed to the vector query engine. -/
structure MetadataFilters where
  filters : List MetadataFilter
  condition : FilterCondition
  deriving DecidableEq, Repr

/-- `MetadataFilters(filters=metadata_filters)` as constructed at
src/orchestration.py:152: the llama_index default combines by AND. -/
def mkMetadataFilters (fs : List MetadataFilter) : MetadataFilters :=
  ⟨fs, .AND⟩

/-- The EQ-predicates emitted from the structured-constraint mapping by the
loop at src/orchestration.py:139-150; an absent or empty dict (Python
truthiness of `if filters_dict:`) emits nothing. -/
def constraintFilters (filters_dict : Option (List (String × PyVal))) : List MetadataFilter :=
  match filters_dict with
  | some fd =>
    if fd.isEmpty then []
    else fd.map (fun kv => ⟨"metadata." ++ kv.1, coerceConstraint kv.2, .EQ⟩)
  | none => []

/-- The IN-predicate over the candidate identifiers, emitted when narrowing ran
(src/orchestration.py:133-136). -/
def candidateFilter : Option (List Int) → List MetadataFilter
  | some ids => [⟨"metadata.customer_id", .vIntList ids, .IN⟩]
  | none => []

/-- The full `metadata_filters` list built in phase 2 of
`hybrid_audience_search` (src/orchestration.py:130-150). -/
def buildMetadataFilters (candidate_ids : Option (List Int))
    (filters_dict : Option (List (String × PyVal))) : List MetadataFilter :=
  candidateFilter candidate_ids ++ constraintFilters filters_dict

/-- One invocation of the vector query engine: the semantic-intent string, the
fixed top-K bound, and the optional filter object
(src/orchestration.py:155-156). -/
structure RefineCall where
  query : String
  similarity_top_k : Nat
  filters : Option MetadataFilters
  deriving DecidableEq, Repr

/-- Observable outcome of one `hybrid_audience_search` request: the returned
string, the call made to the semantic refiner (none when phase 2 was never
reached), and the arguments passed to the SQL Narrowing Gate. -/
structure HybridOutcome where
  result : String
  refineCall : Option RefineCall
  narrowCalls : List String
  deriving DecidableEq, Repr

/-- Phase 2 of `hybrid_audience_search` (src/orchestration.py:129-158): build
the metadata filters, wrap them in a `MetadataFilters` object only when the
list is nonempty, and query the index with `similarity_top_k=10`. -/
def refinePhase (refine : RefineCall → String) (query : String)
    (candidate_ids : Option (List Int)) (filters_dict : Option (List (String × PyVal)))
    (narrowCalls : List String) : HybridOutcome :=
  let metadata_filters := buildMetadataFilters candidate_ids filters_dict
  let filters_obj : Option MetadataFilters :=
    if metadata_filters.isEmpty then none else some (mkMetadataFilters metadata_filters)
  let call : RefineCall := ⟨query, 10, filters_obj⟩
  ⟨refine call, some call, narrowCalls⟩

/-- `hybrid_audience_search` (src/orchestration.py:100-158).  `narrow` is the
SQL Narrowing Gate `sql_candidate_ids` (Except.error models a raised
exception, carrying `str(e)`); `refine` is the vector query engine's
stringified response.  Python truthiness of `if sql_where:` makes both `None`
and the empty string skip phase 1. -/
def hybrid_audience_search (narrow : String → Except String (List Int))
    (refine : RefineCall → String) (query : String)
    (sql_where : Option String) (filters_dict : Option (List (String × PyVal))) :
    HybridOutcome :=
  match sql_where with
  | none => refinePhase refine query none filters_dict []
  | some w =>
    if w = "" then refinePhase refine query none filters_dict []
    else
      match narrow w with
      | .error e => ⟨"SQL Error in narrowing: " ++ e, none, [w]⟩
      | .ok candidate_ids =>
        if candidate_ids.isEmpty then
          ⟨"No customers match the specified behavioral SQL conditions.", none, [w]⟩
        else refinePhase refine query (some candidate_ids) filters_dict [w]

/-- One decision of the Tool-Routing Agent's REASONING state: select a tool
with extracted arguments, or emit the final answer. -/
inductive AgentAction where
  | toolCall (tool : String) (args : String)
  | finalAnswer (text : String)
  deriving DecidableEq, Repr

/-- Conversation history observed by the agent: the query plus the tool
observations appended so far. -/
structure AgentState where
  history : List String
  deriving DecidableEq, Repr

/-- Modelled from the spec: the Tool-Routing Agent's reasoning/tool loop
(spec section 4.6).  The loop body of `ReActAgent` is llama_index library
code, not part of src/, so it is modelled from the spec's state machine: each
cycle runs REASONING (`policy`), and either reaches FINAL_ANSWER or executes
the selected tool, appends the observation to the history (OBSERVING) and
re-enters REASONING; the remaining-cycle budget decreases by one each cycle
and exhausting it fails the request with `AgentExhausted`. -/
def agentLoop (policy : AgentState → AgentAction) (tools : String → String → String) :
    Nat → AgentState → Except String String
  | 0, _ => .error "AgentExhausted"
  | fuel + 1, st =>
    match policy st with
    | .finalAnswer t => .ok t
    | .toolCall tool args => agentLoop policy tools fuel ⟨st.history ++ [tools tool args]⟩

/-- Modelled from the spec: the counters of the process-wide
`TokenCountingHandler` (spec sections 3 and 4.7).  The handler itself is
llama_index library code, not part of src/, so only its interface is
modelled: three primitive counters, a derived LLM total, and `reset_counts`
clearing everything. -/
structure TokenCounts where
  prompt_llm_token_count : Nat
  completion_llm_token_count : Nat
  total_embedding_token_count : Nat
  deriving DecidableEq, Repr

/-- Modelled from the spec: `token_counter.reset_counts()` clears all
counters (spec section 4.7). -/
def reset_counts (_tc : TokenCounts) : TokenCounts :=
  ⟨0, 0, 0⟩

/-- Modelled from the spec: the derived total LLM token count read at
src/orchestration.py:228. -/
def TokenCounts.total_llm_token_count (tc : TokenCounts) : Nat :=
  tc.prompt_llm_token_count + tc.completion_llm_token_count

/-- `run_query_async` (src/orchestration.py:219-230): reset the process-wide
token counter, then drive the agent to completion.  `agentRun` models
`agent.run` together with the token accumulation performed on the counter by
the model and embedding calls it makes; it returns the stringified response
and the counter state afterwards. -/
def run_query_async (agentRun : String → TokenCounts → String × TokenCounts)
    (tc : TokenCounts) (query : String) : String × TokenCounts :=
  agentRun query (reset_counts tc)

/-- `run_query` (src/orchestration.py:232-233) drives `run_query_async` to
completion on the event loop; the observable mapping is identical. -/
def run_query (agentRun : String → TokenCounts → String × TokenCounts)
    (tc : TokenCounts) (query : String) : String × TokenCounts :=
  run_query_async agentRun tc query

/-- Unicode decimal-digit value (category Nd, what `int()` and `float()`
accept as a digit) on the modelled fragment: ASCII and Arabic-Indic digits.
Characters of the other Nd blocks behave exactly like the Arabic-Indic ones
and are omitted. -/
def decimalVal (c : Char) : Option Nat :=
  if 48 ≤ c.val ∧ c.val ≤ 57 then some (c.toNat - 48)
  else if 0x660 ≤ c.val ∧ c.val ≤ 0x669 then some (c.toNat - 0x660)
  else none

/-- Digit characters without a decimal value (Unicode Numeric_Type=Digit but
not category Nd) on the modelled fragment: the superscript digits.  These
make `str.isdigit` true yet `int()` raise ValueError. -/
def isDigitNoDecimal (c : Char) : Bool :=
  c = '¹' || c = '²' || c = '³' ||
    c.val = 0x2070 || (0x2074 ≤ c.val ∧ c.val ≤ 0x2079)

/-- Python's per-character `str.isdigit` on the modelled fragment:
Numeric_Type Decimal or Digit. -/
def isDigitCharPy (c : Char) : Bool :=
  (decimalVal c).isSome || isDigitNoDecimal c

/-- Python `value.isdigit()` with Unicode-aware digit classes
(src/orchestration.py:143). -/
def pyIsDigitU (s : String) : Bool :=
  !s.data.isEmpty && s.data.all isDigitCharPy

/-- Python `int(value)` as invoked at src/orchestration.py:144 on a string
that passed `isdigit`: every character must carry a decimal value — a digit
character without one (e.g. a superscript) raises ValueError — and the value
is read in base 10.  The raise is the `Except.error` branch; in the source
this call sits outside the try/except of lines 146-147. -/
def pyIntU (s : String) : Except String Int :=
  match s.data.mapM decimalVal with
  | some ds => .ok ((ds.foldl (fun a d => a * 10 + d) 0 : Nat) : Int)
  | none => .error ("invalid literal for int() with base 10: " ++ s)

/-- A Python float value: exact finite value, signed infinity, or nan. -/
inductive PyFloatVal where
  | finite (q : Rat)
  | infinite (neg : Bool)
  | nan
  deriving DecidableEq, Repr

/-- Validate and drop underscore separators: Python permits an underscore in
a numeric string only between two digits.  The Bool argument records whether
the previous character was a digit. -/
def stripUnderscoresAux : Bool → List Char → Option (List Char)
  | _, [] => some []
  | prevDigit, '_' :: rest =>
    match rest with
    | c :: _ => if prevDigit && c.isDigit then stripUnderscoresAux false rest else none
    | [] => none
  | _, c :: rest =>
    match stripUnderscoresAux c.isDigit rest with
    | some r => some (c :: r)
    | none => none

/-- Unicode-aware model of Python `float(s)` (src/orchestration.py:146):
decimal digits of the modelled Nd fragment are first transformed to ASCII
(as CPython does), then after optional whitespace and sign the string is
`inf`/`infinity`/`nan` case-insensitively, or digits with an optional single
decimal point, underscore separators between digits, and an optional
exponent.  `none` models a raised ValueError. -/
def parsePyFloatU (s : String) : Option PyFloatVal :=
  let cs0 := s.data.map (fun c =>
    match decimalVal c with
    | some d => Char.ofNat (48 + d)
    | none => c)
  let cs := stripWs cs0
  let sr := parseSign cs
  let low := sr.2.map Char.toLower
  if low = "inf".data ∨ low = "infinity".data then some (.infinite sr.1)
  else if low = "nan".data then some .nan
  else
    match stripUnderscoresAux false sr.2 with
    | none => none
    | some cs2 =>
      match parseMantissa cs2 with
      | none => none
      | some mc =>
        let ec :=
          match parseExpOpt mc.2 with
          | some er => er
          | none => ((0 : Int), mc.2)
        if ec.2.isEmpty then some (.finite (ratOfParts sr.1 mc.1.1 mc.1.2 ec.1))
        else none

/-- Inject a parsed float into the value domain. -/
def pyValOfFloat : PyFloatVal → PyVal
  | .finite q => .vFloat q
  | .infinite neg => .vFloatInf neg
  | .nan => .vFloatNaN

deriving instance DecidableEq for Except

/-- The exact coercion step of src/orchestration.py:141-147 under the
Unicode-aware `isdigit`/`int`/`float` semantics.  `int(value)` at line 144
runs outside the try/except, which guards only the `float(value)` call of
lines 146-147, so its ValueError propagates (`Except.error`); a failed float
parse is caught and leaves the string unchanged; non-strings pass through. -/
def coerceConstraintU (v : PyVal) : Except String PyVal :=
  match v with
  | .vStr s =>
    if pyIsDigitU s then
      match pyIntU s with
      | .ok n => .ok (.vInt n)
      | .error e => .error e
    else
      match parsePyFloatU s with
      | some f => .ok (pyValOfFloat f)
      | none => .ok (.vStr s)
  | other => .ok other

/-- Every EQ-predicate list emitted from a structured-constraint mapping uses
only the EQ operator. -/
theorem constraintFilters_operator (fd : Option (List (String × PyVal))) :
    ∀ f ∈ constraintFilters fd, f.operator = FilterOperator.EQ := by
  intro f hf
  unfold constraintFilters at hf
  cases fd with
  | none => simp at hf
  | some l =>
    by_cases h : l.isEmpty <;> simp [h] at hf
    obtain ⟨kv, v, hmem, rfl⟩ := hf
    rfl

/-- The full metadata-filter list of a request holds at most one IN-predicate. -/
theorem buildMetadataFilters_in_count (cids : Option (List Int))
    (fd : Option (List (String × PyVal))) :
    (buildMetadataFilters cids fd).countP
      (fun f => f.operator == FilterOperator.IN) ≤ 1 := by
  unfold buildMetadataFilters
  rw [List.countP_append]
  have h2 : (constraintFilters fd).countP (fun f => f.operator == FilterOperator.IN) = 0 := by
    rw [List.countP_eq_zero]
    intro f hf
    have := constraintFilters_operator fd f hf
    simp [this]
  cases cids <;> simp [candidateFilter, h2]

/-- The semantic-refiner call made by phase 2, by computation. -/
theorem refinePhase_refineCall (refine : RefineCall → String) (query : String)
    (cids : Option (List Int)) (fd : Option (List (String × PyVal))) (ncs : List String) :
    (refinePhase refine query cids fd ncs).refineCall =
      some ⟨query, 10,
        if (buildMetadataFilters cids fd).isEmpty then none
        else some (mkMetadataFilters (buildMetadataFilters cids fd))⟩ :=
  rfl

/-- Every semantic-refiner call `hybrid_audience_search` makes carries the
original intent query, the fixed top-K of 10, and a filter object built by
`buildMetadataFilters` from some candidate set and the given constraints. -/
theorem hybrid_refineCall_cases (narrow : String → Except String (List Int))
    (refine : RefineCall → String) (query : String) (sw : Option String)
    (fd : Option (List (String × PyVal))) (c : RefineCall)
    (hc : (hybrid_audience_search narrow refine query sw fd).refineCall = some c) :
    ∃ cids : Option (List Int),
      c = ⟨query, 10,
        if (buildMetadataFilters cids fd).isEmpty then none
        else some (mkMetadataFilters (buildMetadataFilters cids fd))⟩ := by
  cases sw with
  | none =>
    rw [show hybrid_audience_search narrow refine query none fd
      = refinePhase refine query none fd [] from rfl, refinePhase_refineCall] at hc
    exact ⟨none, (Option.some.inj hc).symm⟩
  | some w =>
    by_cases hw : w = ""
    · subst hw
      rw [show hybrid_audience_search narrow refine query (some "") fd
        = refinePhase refine query none fd [] from rfl, refinePhase_refineCall] at hc
      exact ⟨none, (Option.some.inj hc).symm⟩
    · rw [show hybrid_audience_search narrow refine query (some w) fd
        = if w = "" then refinePhase refine query none fd []
          else match narrow w with
            | .error e => ⟨"SQL Error in narrowing: " ++ e, none, [w]⟩
            | .ok candidate_ids =>
              if candidate_ids.isEmpty then
                ⟨"No customers match the specified behavioral SQL conditions.", none, [w]⟩
              else refinePhase refine query (some candidate_ids) fd [w] from rfl,
        if_neg hw] at hc
      split at hc
      · cases hc
      · rename_i ids heq
        split at hc
        · cases hc
        · rw [refinePhase_refineCall] at hc
          exact ⟨some ids, (Option.some.inj hc).symm⟩

/-- C2: when the Narrowing Gate yields zero candidate identifiers,
`hybrid_audience_search` returns exactly the literal no-match string and the
semantic refiner is never invoked. -/
theorem C2_empty_narrowing_short_circuit (narrow : String → Except String (List Int))
    (refine : RefineCall → String) (query w : String)
    (fd : Option (List (String × PyVal)))
    (hw : w ≠ "") (hn : narrow w = .ok []) :
    (hybrid_audience_search narrow refine query (some w) fd).result =
      "No customers match the specified behavioral SQL conditions." ∧
    (hybrid_audience_search narrow refine query (some w) fd).refineCall = none := by
  simp [hybrid_audience_search, hw, hn]

/-- Witness for C2 at a concrete predicate whose narrowing is empty. -/
theorem C2_empty_narrowing_short_circuit_witness :
    (hybrid_audience_search (fun _ => .ok []) (fun _ => "synth") "luxury"
      (some "product = nope") none).result =
      "No customers match the specified behavioral SQL conditions." ∧
    (hybrid_audience_search (fun _ => .ok []) (fun _ => "synth") "luxury"
      (some "product = nope") none).refineCall = none :=
  C2_empty_narrowing_short_circuit (fun _ => .ok []) (fun _ => "synth") "luxury"
    "product = nope" none (by decide) rfl

/-- C3: when the Narrowing Gate raises, `hybrid_audience_search` returns the
prefixed error string immediately, phase 2 is not executed, and the error
does not escape the (total) function. -/
theorem C3_narrowing_error_string (narrow : String → Except String (List Int))
    (refine : RefineCall → String) (query w e : String)
    (fd : Option (List (String × PyVal)))
    (hw : w ≠ "") (hn : narrow w = .error e) :
    (hybrid_audience_search narrow refine query (some w) fd).result =
      "SQL Error in narrowing: " ++ e ∧
    (hybrid_audience_search narrow refine query (some w) fd).refineCall = none := by
  simp [hybrid_audience_search, hw, hn]

/-- Witness for C3 at a concrete failing predicate. -/
theorem C3_narrowing_error_string_witness :
    (hybrid_audience_search (fun _ => .error "syntax error at or near bad")
      (fun _ => "synth") "luxury" (some "bad sql") none).result =
      "SQL Error in narrowing: " ++ "syntax error at or near bad" ∧
    (hybrid_audience_search (fun _ => .error "syntax error at or near bad")
      (fun _ => "synth") "luxury" (some "bad sql") none).refineCall = none :=
  C3_narrowing_error_string (fun _ => .error "syntax error at or near bad")
    (fun _ => "synth") "luxury" "bad sql" "syntax error at or near bad" none
    (by decide) rfl

/-- C8: with no behavioral predicate and no structured constraints, no filter
object is constructed (the refiner is called with absent filters and the
fixed top-K of 10) and the Narrowing Gate is never invoked. -/
theorem C8_unconstrained_refinement (narrow : String → Except String (List Int))
    (refine : RefineCall → String) (query : String) (sw : Option String)
    (fd : Option (List (String × PyVal)))
    (hsw : sw = none ∨ sw = some "") (hfd : fd = none ∨ fd = some []) :
    hybrid_audience_search narrow refine query sw fd =
      ⟨refine ⟨query, 10, none⟩, some ⟨query, 10, none⟩, []⟩ := by
  rcases hsw with rfl | rfl <;> rcases hfd with rfl | rfl <;>
    simp [hybrid_audience_search, refinePhase, buildMetadataFilters,
      candidateFilter, constraintFilters]

/-- Witness for C8 at a concrete unconstrained request. -/
theorem C8_unconstrained_refinement_witness :
    hybrid_audience_search (fun _ => .ok [1]) (fun _ => "synth") "luxury" none none =
      ⟨(fun _ : RefineCall => "synth") ⟨"luxury", 10, none⟩,
        some ⟨"luxury", 10, none⟩, []⟩ :=
  C8_unconstrained_refinement (fun _ => .ok [1]) (fun _ => "synth") "luxury"
    none none (Or.inl rfl) (Or.inl rfl)

/-- C9: an empty-string behavioral predicate behaves exactly like an absent
one: the outcome coincides with the absent-predicate outcome for every
behavior of the Narrowing Gate (so the gate is never consulted and the empty
string never reaches SQL), the gate receives no call, and no IN-predicate is
emitted. -/
theorem C9_empty_string_like_none (narrow narrow2 : String → Except String (List Int))
    (refine : RefineCall → String) (query : String)
    (fd : Option (List (String × PyVal))) :
    hybrid_audience_search narrow refine query (some "") fd =
      hybrid_audience_search narrow2 refine query none fd ∧
    (hybrid_audience_search narrow refine query (some "") fd).narrowCalls = [] ∧
    ∀ c mfs f, (hybrid_audience_search narrow refine query (some "") fd).refineCall = some c →
      c.filters = some mfs → f ∈ mfs.filters → f.operator = FilterOperator.EQ := by
  refine ⟨rfl, rfl, ?_⟩
  intro c mfs f hc hmfs hf
  rw [show hybrid_audience_search narrow refine query (some "") fd
    = refinePhase refine query none fd [] from rfl, refinePhase_refineCall] at hc
  rw [← Option.some.inj hc] at hmfs
  by_cases hemp : (buildMetadataFilters none fd).isEmpty
  · rw [if_pos hemp] at hmfs
    cases hmfs
  · rw [if_neg hemp] at hmfs
    rw [← Option.some.inj hmfs] at hf
    exact constraintFilters_operator fd f hf

/-- Witness for C9 at a concrete request with one structured constraint. -/
theorem C9_empty_string_like_none_witness :
    MetadataFilter.operator ⟨"metadata.country", .vStr "PL", .EQ⟩ = FilterOperator.EQ :=
  (C9_empty_string_like_none (fun _ => .error "boom") (fun _ => .ok [1, 2])
    (fun _ => "synth") "luxury" (some [("country", .vStr "PL")])).2.2
    ⟨"luxury", 10, some ⟨[⟨"metadata.country", .vStr "PL", .EQ⟩], .AND⟩⟩
    ⟨[⟨"metadata.country", .vStr "PL", .EQ⟩], .AND⟩
    ⟨"metadata.country", .vStr "PL", .EQ⟩
    (by decide) (by decide) (by decide)

/-- C1: when a behavioral predicate is supplied and narrowing returns a
nonempty candidate set, the refiner is invoked with an IN-predicate over
exactly those candidates; consequently, for every refiner honoring
IN-predicates (the semantic index's interface contract, spec section 6, with
`resultIds` reading the customer identifiers out of a synthesized response),
every identifier in the final result lies in the candidate set. -/
theorem C1_narrowing_subset (narrow : String → Except String (List Int))
    (refine : RefineCall → String) (resultIds : String → List Int)
    (query w : String) (fd : Option (List (String × PyVal))) (ids : List Int)
    (hw : w ≠ "") (hn : narrow w = .ok ids) (hne : ids ≠ [])
    (hhon : ∀ c : RefineCall, ∀ mfs : MetadataFilters, c.filters = some mfs →
      ∀ l : List Int,
        MetadataFilter.mk "metadata.customer_id" (.vIntList l) .IN ∈ mfs.filters →
        ∀ x ∈ resultIds (refine c), x ∈ l) :
    ∃ c mfs,
      (hybrid_audience_search narrow refine query (some w) fd).refineCall = some c ∧
      c.filters = some mfs ∧
      MetadataFilter.mk "metadata.customer_id" (.vIntList ids) .IN ∈ mfs.filters ∧
      (hybrid_audience_search narrow refine query (some w) fd).result = refine c ∧
      ∀ x ∈ resultIds ((hybrid_audience_search narrow refine query (some w) fd).result),
        x ∈ ids := by
  have hids : ids.isEmpty = false := by
    cases ids with
    | nil => exact absurd rfl hne
    | cons a l => rfl
  have hred : hybrid_audience_search narrow refine query (some w) fd
      = refinePhase refine query (some ids) fd [w] := by
    simp [hybrid_audience_search, hw, hn, hids]
  have hbuild : buildMetadataFilters (some ids) fd
      = MetadataFilter.mk "metadata.customer_id" (.vIntList ids) .IN
          :: constraintFilters fd := rfl
  have hbne : (buildMetadataFilters (some ids) fd).isEmpty = false := by
    rw [hbuild]
    rfl
  refine ⟨⟨query, 10, some (mkMetadataFilters (buildMetadataFilters (some ids) fd))⟩,
    mkMetadataFilters (buildMetadataFilters (some ids) fd), ?_, rfl, ?_, ?_, ?_⟩
  · rw [hred, refinePhase_refineCall, hbne]
    simp
  · show MetadataFilter.mk "metadata.customer_id" (.vIntList ids) .IN
      ∈ buildMetadataFilters (some ids) fd
    rw [hbuild]
    exact List.mem_cons_self _ _
  · rw [hred]
    rfl
  · intro x hx
    rw [hred] at hx
    refine hhon ⟨query, 10, some (mkMetadataFilters (buildMetadataFilters (some ids) fd))⟩
      (mkMetadataFilters (buildMetadataFilters (some ids) fd)) rfl ids ?_ x hx
    show MetadataFilter.mk "metadata.customer_id" (.vIntList ids) .IN
      ∈ buildMetadataFilters (some ids) fd
    rw [hbuild]
    exact List.mem_cons_self _ _

/-- Witness for C1 at a concrete narrowed request. -/
theorem C1_narrowing_subset_witness :
    ∃ c mfs,
      (hybrid_audience_search (fun _ => .ok [7, 9]) (fun _ => "synth") "luxury"
        (some "product = socks") (some [("country", .vStr "PL")])).refineCall = some c ∧
      c.filters = some mfs ∧
      MetadataFilter.mk "metadata.customer_id" (.vIntList [7, 9]) .IN ∈ mfs.filters ∧
      (hybrid_audience_search (fun _ => .ok [7, 9]) (fun _ => "synth") "luxury"
        (some "product = socks") (some [("country", .vStr "PL")])).result =
        (fun _ : RefineCall => "synth") c ∧
      ∀ x ∈ (fun _ : String => ([] : List Int))
        ((hybrid_audience_search (fun _ => .ok [7, 9]) (fun _ => "synth") "luxury"
          (some "product = socks") (some [("country", .vStr "PL")])).result),
        x ∈ [7, 9] :=
  C1_narrowing_subset (fun _ => .ok [7, 9]) (fun _ => "synth") (fun _ => [])
    "luxury" "product = socks" (some [("country", .vStr "PL")]) [7, 9]
    (by decide) rfl (by decide)
    (fun _ _ _ _ _ x hx => absurd hx (List.not_mem_nil x))

/-- C5: the agent's reasoning/tool loop, run with any remaining-cycle budget,
always terminates with either a final answer or the AgentExhausted failure;
in particular a policy that never emits a final answer yields AgentExhausted
rather than looping forever. -/
theorem C5_agent_loop_bounded :
    (∀ (policy : AgentState → AgentAction) (tools : String → String → String)
      (maxIters : Nat) (st : AgentState),
      (∃ t, agentLoop policy tools maxIters st = .ok t) ∨
        agentLoop policy tools maxIters st = .error "AgentExhausted") ∧
    ∀ (policy : AgentState → AgentAction) (tools : String → String → String)
      (maxIters : Nat) (st : AgentState),
      (∀ s t, policy s ≠ .finalAnswer t) →
      agentLoop policy tools maxIters st = .error "AgentExhausted" := by
  constructor
  · intro policy tools maxIters
    induction maxIters with
    | zero =>
      intro st
      exact Or.inr rfl
    | succ n ih =>
      intro st
      rw [show agentLoop policy tools (n + 1) st
        = match policy st with
          | .finalAnswer t => .ok t
          | .toolCall tool args =>
            agentLoop policy tools n ⟨st.history ++ [tools tool args]⟩
        from rfl]
      cases hp : policy st with
      | finalAnswer t => exact Or.inl ⟨t, rfl⟩
      | toolCall tool args => exact ih _
  · intro policy tools maxIters
    induction maxIters with
    | zero =>
      intro st _
      rfl
    | succ n ih =>
      intro st hpol
      rw [show agentLoop policy tools (n + 1) st
        = match policy st with
          | .finalAnswer t => .ok t
          | .toolCall tool args =>
            agentLoop policy tools n ⟨st.history ++ [tools tool args]⟩
        from rfl]
      cases hp : policy st with
      | finalAnswer t => exact absurd hp (hpol st t)
      | toolCall tool args => exact ih _ hpol

/-- Witness for C5: a policy that always selects a tool exhausts a budget of
ten cycles with AgentExhausted. -/
theorem C5_agent_loop_bounded_witness :
    (∀ s t, (fun _ : AgentState => AgentAction.toolCall "hybrid_discovery" "luxury") s
      ≠ AgentAction.finalAnswer t) ∧
    agentLoop (fun _ => AgentAction.toolCall "hybrid_discovery" "luxury")
      (fun _ _ => "observation") 10 ⟨["find an audience"]⟩ = .error "AgentExhausted" :=
  ⟨fun _ _ h => AgentAction.noConfusion h,
   C5_agent_loop_bounded.2 (fun _ => AgentAction.toolCall "hybrid_discovery" "luxury")
     (fun _ _ => "observation") 10 ⟨["find an audience"]⟩
     (fun _ _ h => AgentAction.noConfusion h)⟩

/-- C6: every metadata-filter list the code builds holds at most one
IN-predicate, every predicate emitted from a structured constraint uses EQ,
and every filter object handed to the refiner combines its predicates by AND
(and itself holds at most one IN-predicate). -/
theorem C6_filter_invariant (cids : Option (List Int))
    (fd : Option (List (String × PyVal))) :
    (buildMetadataFilters cids fd).countP
      (fun f => f.operator == FilterOperator.IN) ≤ 1 ∧
    (∀ f ∈ constraintFilters fd, f.operator = FilterOperator.EQ) ∧
    ∀ (narrow : String → Except String (List Int)) (refine : RefineCall → String)
      (query : String) (sw : Option String) (c : RefineCall) (mfs : MetadataFilters),
      (hybrid_audience_search narrow refine query sw fd).refineCall = some c →
      c.filters = some mfs →
      mfs.condition = FilterCondition.AND ∧
      mfs.filters.countP (fun f => f.operator == FilterOperator.IN) ≤ 1 := by
  refine ⟨buildMetadataFilters_in_count cids fd, constraintFilters_operator fd, ?_⟩
  intro narrow refine query sw c mfs hc hmfs
  obtain ⟨cids2, rfl⟩ := hybrid_refineCall_cases narrow refine query sw fd c hc
  by_cases hemp : (buildMetadataFilters cids2 fd).isEmpty
  · rw [if_pos hemp] at hmfs
    cases hmfs
  · rw [if_neg hemp] at hmfs
    cases hmfs
    exact ⟨rfl, buildMetadataFilters_in_count cids2 fd⟩

/-- Witness for C6 at a concrete narrowed request with no constraints. -/
theorem C6_filter_invariant_witness :
    MetadataFilters.condition ⟨[⟨"metadata.customer_id", .vIntList [4], .IN⟩], .AND⟩
      = FilterCondition.AND ∧
    (MetadataFilters.filters ⟨[⟨"metadata.customer_id", .vIntList [4], .IN⟩], .AND⟩).countP
      (fun f => f.operator == FilterOperator.IN) ≤ 1 :=
  (C6_filter_invariant (some [4]) none).2.2 (fun _ => .ok [4]) (fun _ => "synth")
    "luxury" (some "product = socks")
    ⟨"luxury", 10, some ⟨[⟨"metadata.customer_id", .vIntList [4], .IN⟩], .AND⟩⟩
    ⟨[⟨"metadata.customer_id", .vIntList [4], .IN⟩], .AND⟩
    (by decide) (by decide)

/-- C7: run_query resets every cost counter to zero before driving the agent
— a reset followed by a read yields all-zero counters — and the outcome of a
request is therefore independent of the counter state a previous request
left behind. -/
theorem C7_cost_reset (tc : TokenCounts) :
    reset_counts tc = ⟨0, 0, 0⟩ ∧
    (reset_counts tc).prompt_llm_token_count = 0 ∧
    (reset_counts tc).completion_llm_token_count = 0 ∧
    (reset_counts tc).total_embedding_token_count = 0 ∧
    (reset_counts tc).total_llm_token_count = 0 ∧
    ∀ (agentRun : String → TokenCounts → String × TokenCounts)
      (tc2 : TokenCounts) (q : String),
      run_query agentRun tc q = run_query agentRun tc2 q :=
  ⟨rfl, rfl, rfl, rfl, rfl, fun _ _ _ => rfl⟩

/-- Faithfulness anchors for the Unicode-aware coercion, matching Python:
an Arabic-Indic digit string coerces to its integer, underscore-separated
and infinity/nan strings coerce to floats, the ASCII examples behave as
before, and a non-numeric string is left unchanged. -/
theorem coerceConstraintU_examples :
    coerceConstraintU (.vStr "٣") = .ok (.vInt 3) ∧
    coerceConstraintU (.vStr "1_5") = .ok (.vFloat (mkRat 15 1)) ∧
    coerceConstraintU (.vStr "inf") = .ok (.vFloatInf false) ∧
    coerceConstraintU (.vStr "-Infinity") = .ok (.vFloatInf true) ∧
    coerceConstraintU (.vStr "nan") = .ok .vFloatNaN ∧
    coerceConstraintU (.vStr "500") = .ok (.vInt 500) ∧
    coerceConstraintU (.vStr "12.5") = .ok (.vFloat (mkRat 25 2)) ∧
    coerceConstraintU (.vStr "PL") = .ok (.vStr "PL") ∧
    coerceConstraintU (.vStr "1_") = .ok (.vStr "1_") ∧
    coerceConstraintU (.vInt 42) = .ok (.vInt 42) := by
  refine ⟨by decide, by decide, by decide, by decide, by decide,
    by decide, by decide, by decide, by decide, by decide⟩

/-- C4 (refuted by the code at a digit character without decimal value): the
superscript-two string passes the `isdigit` test, so `int(value)` at
orchestration.py:144 runs outside the try/except (which guards only the
`float(value)` call) and raises an uncaught ValueError — the request
crashes, and the value is neither coerced to a number nor left as the
unchanged string that the claim's else-branch requires. -/
theorem C4_coercion_raises_on_superscript :
    pyIsDigitU "²" = true ∧
    pyIntU "²" = .error ("invalid literal for int() with base 10: " ++ "²") ∧
    coerceConstraintU (.vStr "²") =
      .error ("invalid literal for int() with base 10: " ++ "²") := by
  refine ⟨by decide, by decide, by decide⟩

/-- C10 (refuted by the code): the coercion step is not total — at the
superscript-three string its `isdigit` test is true yet `int()` has no
decimal digits to parse, and that call sits outside the try/except guarding
only `float()`, so the step raises an uncaught ValueError instead of leaving
the (float-unparsable) string unchanged. -/
theorem C10_coercion_raises_on_digit_without_decimal :
    pyIsDigitU "³" = true ∧
    parsePyFloatU "³" = none ∧
    coerceConstraintU (.vStr "³") =
      .error ("invalid literal for int() with base 10: " ++ "³") := by
  refine ⟨by decide, by decide, by decide⟩

end AgenticCDP
